import Mathlib

/-!
# Shallow embedding of the automated-reasoning job pipeline

This file models, in Lean 4, the data model and operations of the
automated-reasoning repository (FastAPI frontend + RabbitMQ work queue +
Redis KV store + solver workers), and proves or refutes the frozen claims
about it.

Conventions of the embedding:
* Python `str`-enums compare and hash equal to their value strings (so a
  plain string key finds a str-enum dict key); enum-typed fields that
  travel through msgpack as plain strings are modelled by Lean inductives
  together with a `value : _ → String` map, and where the code
  manipulates the raw strings the model uses the strings.
* Machine floats returned by the OR-Tools backend are integral (0/1) for
  the Binary variables used here; assignments are modelled as
  integer-valued, with Python `round` the identity on integers.
* Calls into external kernels (SCIP via OR-Tools, pysat, msgpack) are
  modelled as oracle inputs: the adapter logic around them is embedded
  exactly, parameterised by the outcome the external library reports.
* Python exceptions are modelled with `Option`/`Except`; a caught-and-
  handled exception is the corresponding handler branch.
* Remark (unrelated to the claims below, recorded for completeness):
  solver/models/base.py line 13 evaluates `ProblemType.BASE`, a member
  that does not exist, so importing that module raises `AttributeError`;
  the embedding models the dataclass logic as written, since
  `SudokuProblemModel.__post_init__` always overwrites the defaulted
  fields before they are read.
-/

namespace AReason

/-! ## clients/schemas/problems.py -/

/-- Embedding of `ProblemType(str, Enum)` from clients/schemas/problems.py. -/
inductive ProblemType where
  | search
  | csp
  | sat
  | ip
deriving DecidableEq

/-- The string value of each `ProblemType` member. -/
def ProblemType.value : ProblemType → String
  | .search => "search"
  | .csp => "csp"
  | .sat => "sat"
  | .ip => "ip"

/-- Embedding of `ProblemStatus(str, Enum)` from clients/schemas/problems.py:
exactly the six members declared in the source (lines 26-34). -/
inductive ProblemStatus where
  | created
  | in_queue
  | solved
  | unsolvable
  | unsupported
  | failed
deriving DecidableEq

instance : Fintype ProblemStatus :=
  ⟨⟨{.created, .in_queue, .solved, .unsolvable, .unsupported, .failed}, by decide⟩,
   by intro x; cases x <;> decide⟩

/-- The string value of each `ProblemStatus` member. -/
def ProblemStatus.value : ProblemStatus → String
  | .created => "CREATED"
  | .in_queue => "IN_QUEUE"
  | .solved => "SOLVED"
  | .unsolvable => "UNSOLVABLE"
  | .unsupported => "UNSUPPORTED"
  | .failed => "FAILED"

/-- Embedding of `ProblemName(str, Enum)` from clients/schemas/problems.py. -/
inductive ProblemName where
  | base
  | sudoku
  | n_queens
  | graph_coloring
  | knapsack
deriving DecidableEq

/-- The string value of each `ProblemName` member. -/
def ProblemName.value : ProblemName → String
  | .base => "base"
  | .sudoku => "sudoku"
  | .n_queens => "n_queens"
  | .graph_coloring => "graph_coloring"
  | .knapsack => "knapsack"

/-! ## Variable names of the Sudoku IP encoding — solver/models/sudoku.py -/

/-- The f-string name `x_{i}_{j}_{k}` used for the binary assignment
variables of the IP formulation (`sudoku_to_ip_constraints`). -/
def mkVarName (i j k : Nat) : String :=
  "x_" ++ toString i ++ "_" ++ toString j ++ "_" ++ toString k

/-- Python `str.split("_")` on a character list: an executable model of the
string primitive, structural so the kernel can evaluate it. -/
def splitUnderscore : List Char → List (List Char)
  | [] => [[]]
  | c :: cs =>
    let rest := splitUnderscore cs
    if c = '_' then [] :: rest
    else
      match rest with
      | r :: rs => (c :: r) :: rs
      | [] => [[c]]

/-- Python `int(s)` on a decimal string; `none` models `ValueError`. -/
def pyInt (s : String) : Option Nat :=
  let cs := s.data
  if cs ≠ [] ∧ cs.all Char.isDigit then
    some (cs.foldl (fun a c => 10 * a + (c.toNat - 48)) 0)
  else none

/-- The variable-name parser inside `ip_solution_to_sudoku_grid`
(solver/models/sudoku.py lines 199-206): `var_name.split("_")`, expect
four parts with head `"x"`, convert the other three with `int(..)`;
Python `int` raising `ValueError` is the `none` branch. -/
def parseVarName (name : String) : Option (Nat × Nat × Nat) :=
  match (splitUnderscore name.data).map String.mk with
  | [x, a, b, c] =>
    if x = "x" then
      match pyInt a, pyInt b, pyInt c with
      | some i, some j, some k => some (i, j, k)
      | _, _, _ => none
    else none
  | _ => none

/-! ## Grids

Sudoku grids are Python `list[list[int]]`. Reading is `grid[i][j]`
(always in range where the source reads) and writing is
`grid[i][j] = v`; an out-of-range write in `ip_solution_to_sudoku_grid`
raises `IndexError`, which the source catches and skips, so the embedding
makes out-of-range writes no-ops (`List.set` already is one). -/

/-- Read cell `(i, j)` of a grid (in-range wherever the source reads). -/
def get2d (g : List (List Nat)) (i j : Nat) : Nat :=
  (g.getD i []).getD j 0

/-- Write cell `(i, j)` of a grid; out of range is a no-op. -/
def set2d (g : List (List Nat)) (i j v : Nat) : List (List Nat) :=
  g.set i ((g.getD i []).set j v)

/-- The `[[0]*size]*size` starting grid of both decoders. -/
def zeroGrid (size : Nat) : List (List Nat) :=
  List.replicate size (List.replicate size 0)

/-- A well-formed 9x9 Sudoku input grid: 9 rows of 9 cells, each cell a
digit 0..9 (0 = empty). -/
def WFGrid (g : List (List Nat)) : Prop :=
  g.length = 9 ∧ ∀ row ∈ g, row.length = 9 ∧ ∀ v ∈ row, v ≤ 9

instance (g : List (List Nat)) : Decidable (WFGrid g) := by
  unfold WFGrid; infer_instance

/-! ## IP intermediate representation — solver/models/sudoku.py and
solver/services/ip.py -/

/-- A variable declaration of the IP IR: `{type, lb, ub}`. -/
structure VarInfo where
  type : String
  lb : Int
  ub : Int
deriving DecidableEq

/-- One linear constraint of the IP IR:
`{coefficients, sense, rhs, name}` (coefficients dict in insertion
order). -/
structure IPConstraint where
  coefficients : List (String × Int)
  sense : String
  rhs : Int
  name : String
deriving DecidableEq

/-- The objective of the IP IR: `{coefficients, sense}`. -/
structure IPObjective where
  coefficients : List (String × Int)
  sense : String
deriving DecidableEq

/-- The whole IP IR: `{objective, constraints, variables}` (the source's
dict key `variables` is a reserved word in Lean, hence `vars`). -/
structure IPData where
  objective : IPObjective
  constraints : List IPConstraint
  vars : List (String × VarInfo)
deriving DecidableEq

/-- The cell constraints of `sudoku_to_ip_constraints` (lines 100-110):
for each cell, the digits 1..size sum to one occurrence. -/
def ipCellConstraints (size : Nat) : List IPConstraint :=
  (List.range size).flatMap fun i =>
    (List.range size).map fun j =>
      { coefficients := (List.range' 1 size).map fun k => (mkVarName i j k, (1 : Int))
        sense := "=="
        rhs := 1
        name := "cell_" ++ toString i ++ "_" ++ toString j ++ "_one_value" }

/-- The clue constraints of `sudoku_to_ip_constraints` (lines 112-124):
for each prefilled cell, fix the corresponding binary variable to 1. -/
def ipClueConstraints (grid : List (List Nat)) (size : Nat) : List IPConstraint :=
  (List.range size).flatMap fun i =>
    (List.range size).filterMap fun j =>
      if get2d grid i j ≠ 0 then
        some { coefficients := [(mkVarName i j (get2d grid i j), (1 : Int))]
               sense := "=="
               rhs := 1
               name := "clue_" ++ toString i ++ "_" ++ toString j }
      else none

/-- The row-uniqueness constraints of `sudoku_to_ip_constraints`
(lines 126-137). -/
def ipRowConstraints (size : Nat) : List IPConstraint :=
  (List.range size).flatMap fun i =>
    (List.range' 1 size).map fun k =>
      { coefficients := (List.range size).map fun j => (mkVarName i j k, (1 : Int))
        sense := "=="
        rhs := 1
        name := "row_" ++ toString i ++ "_digit_" ++ toString k }

/-- The column-uniqueness constraints of `sudoku_to_ip_constraints`
(lines 139-150). -/
def ipColConstraints (size : Nat) : List IPConstraint :=
  (List.range size).flatMap fun j =>
    (List.range' 1 size).map fun k =>
      { coefficients := (List.range size).map fun i => (mkVarName i j k, (1 : Int))
        sense := "=="
        rhs := 1
        name := "col_" ++ toString j ++ "_digit_" ++ toString k }

/-- Python `int(size ** 0.5)`: the floor of the square root, computed
structurally (the largest b ≤ size with b * b ≤ size) so the kernel can
evaluate it. -/
def intSqrt (n : Nat) : Nat :=
  (List.range (n + 1)).foldl (fun acc b => if b * b ≤ n then b else acc) 0

/-- The box-uniqueness constraints of `sudoku_to_ip_constraints`
(lines 152-167), with `box_size = int(size ** 0.5)`. -/
def ipBoxConstraints (size : Nat) : List IPConstraint :=
  let boxSize := intSqrt size
  (List.range boxSize).flatMap fun bi =>
    (List.range boxSize).flatMap fun bj =>
      (List.range' 1 size).map fun k =>
        { coefficients :=
            (List.range' (bi * boxSize) boxSize).flatMap fun i =>
              (List.range' (bj * boxSize) boxSize).map fun j =>
                (mkVarName i j k, (1 : Int))
          sense := "=="
          rhs := 1
          name := "box_" ++ toString bi ++ "_" ++ toString bj ++ "_digit_" ++ toString k }

/-- The binary assignment variables of `sudoku_to_ip_constraints`
(lines 88-95), in dict insertion order. -/
def ipVariables (size : Nat) : List (String × VarInfo) :=
  (List.range size).flatMap fun i =>
    (List.range size).flatMap fun j =>
      (List.range' 1 size).map fun k =>
        (mkVarName i j k, { type := "Binary", lb := 0, ub := 1 })

/-- Embedding of `sudoku_to_ip_constraints` (solver/models/sudoku.py
lines 69-179): variables, the five constraint families in source order
(cells, clues, rows, columns, boxes), and the constant objective. -/
def sudokuToIpConstraints (grid : List (List Nat)) (size : Nat := 9) : IPData :=
  { objective := { coefficients := [], sense := "minimize" }
    constraints :=
      ipCellConstraints size ++ ipClueConstraints grid size ++
      ipRowConstraints size ++ ipColConstraints size ++ ipBoxConstraints size
    vars := ipVariables size }

/-- Embedding of `ip_solution_to_sudoku_grid` (solver/models/sudoku.py
lines 182-213): fold the solver's `{var_name: value}` dict (insertion
order) over the all-zero grid, writing digit `k` into cell `(i, j)` for
every binary variable `x_i_j_k` whose value rounds to 1. -/
def ipSolutionToSudokuGrid (vals : List (String × Int)) (size : Nat := 9) :
    List (List Nat) :=
  vals.foldl
    (fun g p =>
      match parseVarName p.1 with
      | some ijk => if p.2 = (1 : Int) then set2d g ijk.1 ijk.2.1 ijk.2.2 else g
      | none => g)
    (zeroGrid size)

/-! ## Sudoku SAT encoding — solver/models/sudoku.py lines 219-299 -/

/-- The 1-based DIMACS variable number `var(r, c, v) = 81 r + 9 c + v + 1`
of `sudoku_to_sat_constraints`. -/
def vNum (r c v : Nat) : Int :=
  ((81 * r + 9 * c + v + 1 : Nat) : Int)

/-- Section (A): each cell has at least one number. -/
def satAtLeastOneClauses : List (List Int) :=
  (List.range 9).flatMap fun r =>
    (List.range 9).map fun c =>
      (List.range 9).map fun v => vNum r c v

/-- Section (B): each cell has at most one number (pairwise negations). -/
def satCellPairClauses : List (List Int) :=
  (List.range 9).flatMap fun r =>
    (List.range 9).flatMap fun c =>
      (List.range 9).flatMap fun v1 =>
        (List.range' (v1 + 1) (8 - v1)).map fun v2 =>
          [-vNum r c v1, -vNum r c v2]

/-- Section (C): each number appears at most once per row. -/
def satRowClauses : List (List Int) :=
  (List.range 9).flatMap fun r =>
    (List.range 9).flatMap fun v =>
      (List.range 9).flatMap fun c1 =>
        (List.range' (c1 + 1) (8 - c1)).map fun c2 =>
          [-vNum r c1 v, -vNum r c2 v]

/-- Section (D): each number appears at most once per column. -/
def satColClauses : List (List Int) :=
  (List.range 9).flatMap fun c =>
    (List.range 9).flatMap fun v =>
      (List.range 9).flatMap fun r1 =>
        (List.range' (r1 + 1) (8 - r1)).map fun r2 =>
          [-vNum r1 c v, -vNum r2 c v]

/-- Section (E): each number appears at most once per 3x3 box, as pairwise
negations over the box's cell list, indexed exactly as in the source. -/
def satBoxClauses : List (List Int) :=
  (List.range 3).flatMap fun br =>
    (List.range 3).flatMap fun bc =>
      (List.range 9).flatMap fun v =>
        let cells : List (Nat × Nat) :=
          (List.range' (br * 3) 3).flatMap fun r =>
            (List.range' (bc * 3) 3).map fun c => (r, c)
        (List.range cells.length).flatMap fun i =>
          (List.range' (i + 1) (cells.length - (i + 1))).map fun j =>
            [-vNum (cells.getD i (0, 0)).1 (cells.getD i (0, 0)).2 v,
             -vNum (cells.getD j (0, 0)).1 (cells.getD j (0, 0)).2 v]

/-- Section (F): unit clauses for the given clues. -/
def satClueClauses (grid : List (List Nat)) : List (List Int) :=
  (List.range 9).flatMap fun r =>
    (List.range 9).filterMap fun c =>
      if get2d grid r c ≠ 0 then
        some [vNum r c (get2d grid r c - 1)]
      else none

/-- Embedding of `sudoku_to_sat_constraints` (solver/models/sudoku.py
lines 219-273): the clause list `{clauses: [...]}` in source order. -/
def sudokuToSatConstraints (grid : List (List Nat)) : List (List Int) :=
  satAtLeastOneClauses ++ satCellPairClauses ++ satRowClauses ++
  satColClauses ++ satBoxClauses ++ satClueClauses grid

/-- Embedding of `sat_solution_to_sudoku_grid` (solver/models/sudoku.py
lines 275-299): fold the `{var_index: bool}` assignment dict over the
all-zero grid; every `True` variable `L` writes `v + 1` into cell
`(r, c)` where `L - 1 = 81 r + 9 c + v`. -/
def satSolutionToSudokuGrid (assignment : List (Nat × Bool)) (size : Nat := 9) :
    List (List Nat) :=
  assignment.foldl
    (fun g p =>
      if p.2 then
        set2d g ((p.1 - 1) / 81) (((p.1 - 1) % 81) / 9) ((p.1 - 1) % 9 + 1)
      else g)
    (zeroGrid size)

/-! ## Satisfying solver assignments (claim C5)

The spec's invariant quantifies over assignments the back-end solver can
return with status optimal/feasible/satisfiable, i.e. assignments that
satisfy the generated IR. -/

/-- The value of a linear form `coefficients` under an assignment. -/
def evalLin (a : String → Int) (coeffs : List (String × Int)) : Int :=
  (coeffs.map fun p => p.2 * a p.1).sum

/-- The relation an IR constraint sense imposes (the three senses the
adapters translate; anything else constrains nothing, matching the
adapter's skip-with-warning branch). -/
def senseHolds (sense : String) (lhs rhs : Int) : Prop :=
  if sense = "==" then lhs = rhs
  else if sense = "<=" then lhs ≤ rhs
  else if sense = ">=" then lhs ≥ rhs
  else True

instance (sense : String) (lhs rhs : Int) : Decidable (senseHolds sense lhs rhs) := by
  unfold senseHolds; infer_instance

/-- An integral assignment satisfies the IP IR: every constraint holds and
every Binary variable takes a value in {0, 1}. -/
def ipSatisfies (a : String → Int) (d : IPData) : Prop :=
  (∀ c ∈ d.constraints, senseHolds c.sense (evalLin a c.coefficients) c.rhs) ∧
  (∀ p ∈ d.vars, p.2.type = "Binary" → 0 ≤ a p.1 ∧ a p.1 ≤ 1)

instance (a : String → Int) (d : IPData) : Decidable (ipSatisfies a d) := by
  unfold ipSatisfies; infer_instance

/-- A DIMACS literal is true under a boolean assignment. -/
def satLitHolds (a : Nat → Bool) (lit : Int) : Prop :=
  if 0 < lit then a lit.toNat = true else a (-lit).toNat = false

instance (a : Nat → Bool) (lit : Int) : Decidable (satLitHolds a lit) := by
  unfold satLitHolds; infer_instance

/-- A boolean assignment satisfies a CNF clause list. -/
def satSatisfies (a : Nat → Bool) (clauses : List (List Int)) : Prop :=
  ∀ cl ∈ clauses, ∃ lit ∈ cl, satLitHolds a lit

instance (a : Nat → Bool) (clauses : List (List Int)) :
    Decidable (satSatisfies a clauses) := by
  unfold satSatisfies; infer_instance

/-- The composition encode → solve → decode of the IP pipeline (§4.5):
the adapter returns `{var_name: var.solution_value()}` over exactly the
declared variables in declaration order (solver/services/ip.py
lines 242-252), which `write_back_solution` feeds to
`ip_solution_to_sudoku_grid`. -/
def ipDecodedGrid (grid : List (List Nat)) (a : String → Int) : List (List Nat) :=
  ipSolutionToSudokuGrid ((sudokuToIpConstraints grid).vars.map fun p => (p.1, a p.1))

/-- The composition encode → solve → decode of the SAT pipeline (§4.5):
the SAT service builds `assignment[abs(var)] = var > 0` over the
solver model's variables 1..729 (solver/services/sat.py lines 79-85),
which `write_back_solution` feeds to `sat_solution_to_sudoku_grid`. -/
def satDecodedGrid (a : Nat → Bool) : List (List Nat) :=
  satSolutionToSudokuGrid ((List.range' 1 729).map fun L => (L, a L))

/-! ## Msgpack values and the problem codec — clients/util.py -/

/-- Msgpack-representable values appearing in problem records. -/
inductive MVal where
  | str (s : String)
  | int (z : Int)
  | bool (b : Bool)
  | arr (vs : List MVal)
  | dict (fields : List (String × MVal))

/-- Dict lookup (`d.get(k)`) on a field list in insertion order. -/
def lookupKey (d : List (String × MVal)) (k : String) : Option MVal :=
  (d.find? fun p => p.1 = k).map (·.2)

/-- A Python `list[list[int]]` Sudoku grid as a msgpack value. -/
def gridToMVal (g : List (List Nat)) : MVal :=
  .arr (g.map fun row => .arr (row.map fun n => MVal.int (n : Int)))

/-- Extract a `list[int]` row from a msgpack value (the shapes the
submission path produces; malformed shapes surface as the model
construction failure, like the exception they raise in the source). -/
def MVal.asRow : MVal → Option (List Nat)
  | .arr vs => vs.mapM fun v =>
      match v with
      | .int z => if 0 ≤ z then some z.toNat else none
      | _ => none
  | _ => none

/-- Extract a `list[list[int]]` grid from a msgpack value. -/
def MVal.asGrid : MVal → Option (List (List Nat))
  | .arr rows => rows.mapM MVal.asRow
  | _ => none

/-- The base `Problem` dataclass (clients/schemas/problems.py lines 45-74)
as it exists in memory after a decode: enum-typed fields hold the wire
strings (str-enum equality identifies them with the members), and
`created_at` is the datetime's isoformat image
(`fromisoformat ∘ isoformat = id`). Field defaults are the dataclass
defaults; `created_at`'s Python default is a fresh timestamp, modelled
as an unconstrained string. -/
structure ProblemRec where
  problem_id : String
  problem_type : String
  problem_name : String
  problem_class : String := "clients.schemas.problems"
  problem_data : List (String × MVal) := []
  created_at : String := ""
  status : String := "CREATED"
  solution : Option MVal := none
  solution_time : Option MVal := none
  error_message : Option String := none

/-- The `Sudoku` subclass registered in the codec's class map
(clients/schemas/sat/sudoku.py lines 10-28, imported by clients/util.py):
adds a `grid : list[str]` field; its `__post_init__` overwrites
`problem_data` with `{"grid": grid}`. -/
structure SudokuRec where
  problem_id : String
  problem_type : String := "sat"
  problem_name : String := "Sudoku"
  problem_class : String := "clients.schemas.sat.sudoku"
  problem_data : List (String × MVal) := []
  created_at : String := ""
  status : String := "CREATED"
  solution : Option MVal := none
  solution_time : Option MVal := none
  error_message : Option String := none
  grid : List String

/-- An in-memory problem value: either the base class or the codec's
registered subclass (Python dataclass equality is class-sensitive, which
the constructor distinction captures). -/
inductive PyProblem where
  | base (r : ProblemRec)
  | sudoku (s : SudokuRec)

/-- The unpacked msgpack payload of a serialized problem
(`msgpack.unpackb ∘ msgpack.packb` is the identity on these dicts):
all base fields, plus the `grid` key exactly when a Sudoku was
serialized (`asdict` emits every dataclass field). -/
structure Payload where
  problem_id : String
  problem_type : String
  problem_name : String
  problem_class : String
  problem_data : List (String × MVal)
  created_at : String
  status : String
  solution : Option MVal
  solution_time : Option MVal
  error_message : Option String
  grid : Option (List String)

/-- Embedding of `_serialize_problem` (clients/util.py lines 19-29):
`asdict`, enum values extracted to strings, `created_at` to isoformat —
all identities in this representation. -/
def serializeProblem : PyProblem → Payload
  | .base r =>
    { problem_id := r.problem_id, problem_type := r.problem_type
      problem_name := r.problem_name, problem_class := r.problem_class
      problem_data := r.problem_data, created_at := r.created_at
      status := r.status, solution := r.solution
      solution_time := r.solution_time, error_message := r.error_message
      grid := none }
  | .sudoku s =>
    { problem_id := s.problem_id, problem_type := s.problem_type
      problem_name := s.problem_name, problem_class := s.problem_class
      problem_data := s.problem_data, created_at := s.created_at
      status := s.status, solution := s.solution
      solution_time := s.solution_time, error_message := s.error_message
      grid := some s.grid }

/-- Embedding of `_deserialize_problem` (clients/util.py lines 32-58):
pop `problem_class`, dispatch through
`cls_map = {"Problem": Problem, "Sudoku": Sudoku}` with fallback to
`Problem`, filter the payload to the target signature and construct.
The constructed instance's `problem_class` is therefore the class
default, never the serialized value. `none` models the construction
raising (`TypeError` on a missing required `grid`, `ValueError` from
`__post_init__` on empty identifiers). -/
def deserializeProblem (p : Payload) : Option PyProblem :=
  if p.problem_class = "Sudoku" then
    match p.grid with
    | some g =>
      if p.problem_id = "" ∨ p.problem_type = "" ∨ p.problem_name = "" then none
      else
        some (.sudoku
          { problem_id := p.problem_id, problem_type := p.problem_type
            problem_name := p.problem_name
            problem_data := [("grid", MVal.arr (g.map MVal.str))]
            created_at := p.created_at, status := p.status
            solution := p.solution, solution_time := p.solution_time
            error_message := p.error_message, grid := g })
    | none => none
  else
    if p.problem_id = "" ∨ p.problem_type = "" ∨ p.problem_name = "" then none
    else
      some (.base
        { problem_id := p.problem_id, problem_type := p.problem_type
          problem_name := p.problem_name
          problem_data := p.problem_data
          created_at := p.created_at, status := p.status
          solution := p.solution, solution_time := p.solution_time
          error_message := p.error_message })

/-! ## IP solver adapters — solver/services/ip.py and
solver/services/ip/ip.py

Both adapters build one OR-Tools constraint per IR constraint from a
lower and an upper bound (`none` = ∓infinity) and then set the
coefficients of the declared variables. -/

/-- Constraint-bound translation of `IPSolverService._solve_with_ortools`
(solver/services/ip.py lines 205-221): equality is the two-sided bound
`[rhs, rhs]`; an unknown sense logs a warning and skips the constraint
(`none`). -/
def ctBounds (sense : String) (rhs : Int) : Option (Option Int × Option Int) :=
  if sense = "==" then some (some rhs, some rhs)
  else if sense = "<=" then some (none, some rhs)
  else if sense = ">=" then some (some rhs, none)
  else none

/-- Coefficient application of `IPSolverService._solve_with_ortools`
(lines 223-227): a coefficient whose variable is not declared is skipped
with a warning. -/
def appliedCoefficients (varNames : List String) (coeffs : List (String × Int)) :
    List (String × Int) :=
  coeffs.filter fun p => varNames.contains p.1

/-- Constraint-bound translation of the legacy `IPSolver._solve_with_ortools`
(solver/services/ip/ip.py lines 194-198): lower bound is `rhs` only for
`">="`, upper bound is `rhs` only for `"<="` — so `"=="` yields the
unconstrained interval. -/
def legacyCtBounds (sense : String) (rhs : Int) : Option Int × Option Int :=
  ((if sense = ">=" then some rhs else none),
   (if sense = "<=" then some rhs else none))

/-- Coefficient application of the legacy adapter (lines 200-201):
`variables[var_name]` raises `KeyError` on an undeclared name, caught by
the outer handler which turns the whole solve into an error result. -/
def legacyApplyCoefficients (varNames : List String) (coeffs : List (String × Int)) :
    Except String (List (String × Int)) :=
  if coeffs.all (fun p => varNames.contains p.1) then .ok coeffs
  else .error "KeyError"

/-! ## The IP solver service and the worker — solver/services/ip.py,
solver/models/sudoku.py, solver/worker.py -/

/-- The outcome the OR-Tools back end reports (pywraplp status codes). -/
inductive ORStatus where
  | optimal
  | feasible
  | infeasible
  | unbounded
  | notSolved
deriving DecidableEq

/-- The result dict of `_solve_with_ortools` as consumed downstream
(solver/services/ip.py lines 242-294; solver statistics and the
objective value are abstracted away — nothing downstream branches on
them). -/
structure ORResult where
  status : String
  isSolved : Bool
  vars : Option (List (String × Int))
  errorMsg : Option String
deriving DecidableEq

/-- Embedding of `_solve_with_ortools`'s status dispatch
(solver/services/ip.py lines 242-294), parameterised by the oracle
status and the variable values the back end reports. -/
def solveWithOrtools (d : IPData) (oracle : ORStatus) (vals : String → Int) : ORResult :=
  match oracle with
  | .optimal =>
    { status := "optimal", isSolved := true
      vars := some (d.vars.map fun p => (p.1, vals p.1)), errorMsg := none }
  | .feasible =>
    { status := "feasible", isSolved := true
      vars := some (d.vars.map fun p => (p.1, vals p.1)), errorMsg := none }
  | .infeasible =>
    { status := "unsolvable", isSolved := false, vars := none, errorMsg := none }
  | .unbounded =>
    { status := "unsolvable", isSolved := false, vars := none, errorMsg := none }
  | .notSolved =>
    { status := "error", isSolved := false, vars := none
      errorMsg := some "Solver did not solve (possibly timeout or other issue)" }

/-- The solution dicts flowing through the worker: the raw adapter result,
the `{"grid", "statistics", "status"}` dict produced by
`write_back_solution`, or the `{"error": ...}` dict of the failure
branches. -/
inductive SolData where
  | solverResult (r : ORResult)
  | gridResult (grid : List (List Nat)) (status : String)
  | errorResult (msg : String)
deriving DecidableEq

/-- The `Solution` dataclass (clients/schemas/solutions.py). -/
structure SolutionRec where
  problem_id : String
  solution_data : SolData
  status : ProblemStatus
deriving DecidableEq

/-- `solution.solution_data.get("variables", {})` in
`write_back_solution`. -/
def SolData.getVariables : SolData → List (String × Int)
  | .solverResult r => r.vars.getD []
  | _ => []

/-- `solution.solution_data.get("status", "")` in `write_back_solution`. -/
def SolData.getStatus : SolData → String
  | .solverResult r => r.status
  | .gridResult _ s => s
  | .errorResult _ => ""

/-- The msgpack image of a solution dict as persisted onto the problem
record (statistics abstracted to an empty dict). -/
def SolData.toMVal : SolData → MVal
  | .solverResult r =>
    .dict ([("status", .str r.status), ("isSolved", .bool r.isSolved)] ++
      (match r.vars with
       | some vs => [("variables", MVal.dict (vs.map fun q => (q.1, MVal.int q.2)))]
       | none => []))
  | .gridResult g s =>
    .dict [("grid", gridToMVal g), ("statistics", .dict []), ("status", .str s)]
  | .errorResult m => .dict [("error", .str m)]

/-- The `SudokuProblemModel` built by the worker for an IP problem
(solver/models/sudoku.py lines 13-43): identifiers copied from the
problem and the computed IP formulation (the worker only dispatches the
IP registry entry, so only the IP branch of `__post_init__` is
reachable). -/
structure SudokuModel where
  problem_id : String
  problem_type : String
  problem_data : IPData
deriving DecidableEq

/-- Embedding of `SudokuProblemModel(problem=problem)` on a decoded base
problem (solver/models/sudoku.py lines 19-43): base `Problem` has no
`grid` attribute, so the grid comes from `problem_data["grid"]`; a
missing or malformed grid and an empty `problem_id` raise, which the
worker's construction handler turns into FAILED. -/
def sudokuModelInit (p : ProblemRec) : Except String SudokuModel :=
  match (lookupKey p.problem_data "grid").bind MVal.asGrid with
  | none => .error "Sudoku problem must include a 'grid' to build constraints"
  | some grid =>
    if p.problem_id = "" then .error "problem_id cannot be empty"
    else
      .ok { problem_id := p.problem_id, problem_type := p.problem_type
            problem_data := sudokuToIpConstraints grid }

/-- Embedding of `IPSolverService.solve` (solver/services/ip.py
lines 33-74): SOLVED if the backend result's `isSolved` is truthy,
UNSOLVABLE otherwise. -/
def ipServiceSolve (m : SudokuModel) (oracle : ORStatus) (vals : String → Int) :
    SolutionRec :=
  let result := solveWithOrtools m.problem_data oracle vals
  { problem_id := m.problem_id
    solution_data := .solverResult result
    status := if result.isSolved then .solved else .unsolvable }

/-- Embedding of `SudokuProblemModel.write_back_solution`
(solver/models/sudoku.py lines 45-66): decode the grid from the adapter
result, repackage the solution dict — and set
`solution.status = ProblemStatus.SOLVED` unconditionally (line 64). -/
def writeBackSolution (m : SudokuModel) (sol : SolutionRec) : SolutionRec :=
  let grid :=
    if m.problem_type = "ip" then ipSolutionToSudokuGrid sol.solution_data.getVariables
    else []
  { problem_id := m.problem_id
    solution_data := .gridResult grid sol.solution_data.getStatus
    status := .solved }

/-- Embedding of `Worker._solve` (solver/worker.py lines 169-206).
`ProblemModelMap` has exactly one problem-type entry (IP) whose model
dict has exactly one name entry (SUDOKU): a missing type raises
`KeyError` in the registry try-block (UNSUPPORTED), while a registered
type with an unregistered name makes `dict.get` return `None`, and
calling `None` then raises `TypeError` inside the model-construction
try-block (FAILED). -/
def workerSolve (p : ProblemRec) (oracle : ORStatus) (vals : String → Int) :
    SolutionRec :=
  if p.problem_type ≠ ProblemType.ip.value then
    { problem_id := p.problem_id
      solution_data := .errorResult ("No model for " ++ p.problem_name)
      status := .unsupported }
  else if p.problem_name ≠ ProblemName.sudoku.value then
    { problem_id := p.problem_id
      solution_data := .errorResult "TypeError: 'NoneType' object is not callable"
      status := .failed }
  else
    match sudokuModelInit p with
    | .error e =>
      { problem_id := p.problem_id, solution_data := .errorResult e, status := .failed }
    | .ok m => writeBackSolution m (ipServiceSolve m oracle vals)

/-- Embedding of `save_solution_to_redis` (clients/redis_sync_client.py
lines 36-75) in the case where the problem record is present and
decodes: set `problem.solution` to the solution dict and
`problem.status` to the solution's status, then re-serialize. -/
def persistSolution (stored : ProblemRec) (sol : SolutionRec) : ProblemRec :=
  { stored with
    solution := some sol.solution_data.toMVal
    status := sol.status.value }

/-! ## The worker's consume callback — solver/worker.py lines 87-151 -/

/-- Manual acknowledgement actions of a consumer callback. -/
inductive AckAction where
  | ack
  | nackRequeue
deriving DecidableEq

/-- Embedding of `Worker._process_message` (solver/worker.py
lines 121-151): a deserialization failure is logged and re-raised; a
successful solve is stored, and a storage failure re-raises. The decode
outcome and the storage outcome are oracle inputs (msgpack and Redis are
external). -/
def processMessage (decoded : Except String ProblemRec) (oracle : ORStatus)
    (vals : String → Int) (storeOk : Bool) : Except String SolutionRec :=
  match decoded with
  | .error e => .error e
  | .ok p =>
    let sol := workerSolve p oracle vals
    if storeOk then .ok sol else .error "StorageError"

/-- Embedding of the consumer `callback` (solver/worker.py lines 95-108):
nack-requeue on shutdown, ack on success, and nack-requeue on any
exception from `_process_message`. -/
def consumeCallback (shutdownSet : Bool) (res : Except String SolutionRec) : AckAction :=
  if shutdownSet then .nackRequeue
  else
    match res with
    | .ok _ => .ack
    | .error _ => .nackRequeue

/-! ## The result-queue listener — src/api/repository/rabbitmq_repository.py
lines 57-78 and src/api/__main__.py lines 21-40 -/

/-- The `ResultQueueMessage` payload `{puzzle_id, status, output}`. -/
structure ResultMessage where
  puzzle_id : String
  status : String
  output : Option String
deriving DecidableEq

/-- Embedding of `_on_message` in `RabbitMQRepository.consume_results`:
a JSON decode failure is logged, acked and dropped; a decodable message
is acked in the `finally` block regardless of the callback's outcome —
no branch ever negatively acknowledges. -/
def onResultMessage (decoded : Except String ResultMessage)
    (callbackOutcome : Except String Unit) : AckAction :=
  match decoded with
  | .error _ => .ack
  | .ok _ =>
    match callbackOutcome with
    | .ok _ => .ack
    | .error _ => .ack

/-- Events of the result-listener path for one decodable message. -/
inductive ListenerEvent where
  | callbackInvoked
  | acked
  | kvUpserted
  | streamPublished
deriving DecidableEq

/-- Order of events for one decodable result message: the consumer thread
invokes the callback — which only schedules `process_result_message`
onto the event loop (`loop.call_soon_threadsafe`, src/api/__main__.py
lines 31-32) — then immediately acks in the `finally` block; the
scheduled task later runs `upsert_fields` and `streamer.publish`
(lines 21-27). -/
def resultListenerTrace : List ListenerEvent :=
  [.callbackInvoked, .acked, .kvUpserted, .streamPublished]

/-! ## The submission paths — src/api/service/problems_service.py and
src/api/service/puzzle_service.py -/

/-- KV and broker interactions of a submission operation. -/
inductive SubmitEvent where
  | kvExistsCheck
  | statusSetInQueue
  | brokerPublish
  | kvWrite
deriving DecidableEq

/-- Event order of `save_problem` (src/api/service/problems_service.py
lines 24-28): `enqueue_problem` publishes to the work queue first, then
the status is set to IN_QUEUE, then `save_problem_redis` writes the KV
record. -/
def saveProblemTrace : List SubmitEvent :=
  [.brokerPublish, .statusSetInQueue, .kvWrite]

/-- Event order of `PuzzleService.create_puzzle`
(src/api/service/puzzle_service.py lines 28-43): id-collision check,
KV create, then broker publish. -/
def createPuzzleTrace : List SubmitEvent :=
  [.kvExistsCheck, .kvWrite, .brokerPublish]

/-- The claim's ordering contract on a submission trace: the KV write of
the problem record happens before the publish to the work queue. -/
def kvWriteBeforePublish (t : List SubmitEvent) : Prop :=
  t.findIdx (· == SubmitEvent.kvWrite) < t.findIdx (· == SubmitEvent.brokerPublish)

instance (t : List SubmitEvent) : Decidable (kvWriteBeforePublish t) := by
  unfold kvWriteBeforePublish; infer_instance

/-! ## Sudoku request validation — api/schemas/sudoku.py lines 10-25 -/

/-- Character test of `validate_grid`: `c.isdigit() or c == "_"`
(the grids in scope use ASCII digits). -/
def isAllowedChar (c : Char) : Bool :=
  c.isDigit || c = '_'

/-- The per-row checks of `validate_grid`: length exactly 9 and every
character a digit or underscore (a failing row raises `ValueError`). -/
def rowOk (row : String) : Bool :=
  row.length == 9 && row.data.all isAllowedChar

/-- Embedding of `SudokuCreateRequest.validate_grid`: the grid is accepted
iff every row passes the per-row checks; the number of rows is never
inspected. -/
def validateGrid (grid : List String) : Bool :=
  grid.all rowOk

/-! ## Concrete data for witnesses and counterexamples -/

/-- The canonical solved Sudoku grid (the completion of the spec's
happy-path example). -/
def gStar : List (List Nat) :=
  [[5, 3, 4, 6, 7, 8, 9, 1, 2],
   [6, 7, 2, 1, 9, 5, 3, 4, 8],
   [1, 9, 8, 3, 4, 2, 5, 6, 7],
   [8, 5, 9, 7, 6, 1, 4, 2, 3],
   [4, 2, 6, 8, 5, 3, 7, 9, 1],
   [7, 1, 3, 9, 2, 4, 8, 5, 6],
   [9, 6, 1, 5, 3, 7, 2, 8, 4],
   [2, 8, 7, 4, 1, 9, 6, 3, 5],
   [3, 4, 5, 2, 8, 6, 1, 7, 9]]

/-- The integral IP assignment induced by the solved grid: a binary
variable is 1 exactly when the grid realises its digit. -/
def aStar : String → Int := fun n =>
  match parseVarName n with
  | some ijk => if get2d gStar ijk.1 ijk.2.1 = ijk.2.2 then 1 else 0
  | none => 0

/-- The boolean SAT assignment induced by the solved grid. -/
def bStar : Nat → Bool := fun L =>
  get2d gStar ((L - 1) / 81) (((L - 1) % 81) / 9) == (L - 1) % 9 + 1

/-- The spec's infeasible scenario: two identical clues in row 0
(row 0 = 550000000, rest empty). -/
def gBad : List (List Nat) :=
  [5, 5, 0, 0, 0, 0, 0, 0, 0] :: List.replicate 8 (List.replicate 9 0)

/-- The queued problem record of the infeasible scenario as the worker
decodes it. -/
def pBad : ProblemRec :=
  { problem_id := "p-infeasible", problem_type := "ip", problem_name := "sudoku"
    problem_data := [("grid", gridToMVal gBad)], status := "IN_QUEUE" }

/-- A problem whose type is registered (IP) but whose name is not. -/
def pNQueens : ProblemRec :=
  { problem_id := "p-nqueens", problem_type := "ip", problem_name := "n_queens"
    status := "IN_QUEUE" }

/-- A problem whose type has no registry entry at all. -/
def pSatType : ProblemRec :=
  { problem_id := "p-sat", problem_type := "sat", problem_name := "sudoku"
    status := "IN_QUEUE" }

/-- A base problem record with a non-default `problem_class`. -/
def rCustomClass : ProblemRec :=
  { problem_id := "p-custom", problem_type := "ip", problem_name := "sudoku"
    problem_class := "custom", created_at := "2025-01-01T00:00:00+00:00" }

/-- A base problem record with the default `problem_class`. -/
def rDefaultClass : ProblemRec :=
  { problem_id := "p-default", problem_type := "ip", problem_name := "sudoku"
    created_at := "2025-01-01T00:00:00+00:00" }

/-! ## Decoder folds as write sequences

Both decoders are folds that perform a sequence of cell writes; the
writes each fold performs are made explicit so the two pipelines share
one analysis. -/

/-- Apply a sequence of cell writes `(i, j, v)` to a grid. -/
def applyWrites (g : List (List Nat)) (ws : List (Nat × Nat × Nat)) : List (List Nat) :=
  ws.foldl (fun h w => set2d h w.1 w.2.1 w.2.2) g

/-- The writes the IP decoder performs: one per parsed variable whose
value rounds to 1. -/
def ipWrites (pairs : List (String × Int)) : List (Nat × Nat × Nat) :=
  pairs.filterMap fun p =>
    match parseVarName p.1 with
    | some ijk => if p.2 = (1 : Int) then some ijk else none
    | none => none

/-- The writes the SAT decoder performs: one per `True` variable. -/
def satWrites (assignment : List (Nat × Bool)) : List (Nat × Nat × Nat) :=
  assignment.filterMap fun p =>
    if p.2 then some ((p.1 - 1) / 81, ((p.1 - 1) % 81) / 9, (p.1 - 1) % 9 + 1)
    else none

/-! # Theorems -/

/-- C1: for an encoding the back end reports infeasible, the worker's
`_solve` — `IPSolverService.solve` followed by `write_back_solution` —
returns a Solution whose terminal status is SOLVED, not UNSOLVABLE
(the service computes UNSOLVABLE and `write_back_solution` overwrites it
on line 64), and the persisted problem record carries status "SOLVED"
with a non-null solution field. This refutes the claim and exhibits the
divergence at the spec's own infeasible scenario. -/
theorem c1_infeasible_persisted_as_solved :
    (workerSolve pBad .infeasible (fun _ => 0)).status = ProblemStatus.solved
  ∧ (workerSolve pBad .infeasible (fun _ => 0)).status ≠ ProblemStatus.unsolvable
  ∧ ((sudokuModelInit pBad).toOption.map
      (fun m => (ipServiceSolve m .infeasible (fun _ => 0)).status))
      = some ProblemStatus.unsolvable
  ∧ (persistSolution pBad (workerSolve pBad .infeasible (fun _ => 0))).status = "SOLVED"
  ∧ (persistSolution pBad (workerSolve pBad .infeasible (fun _ => 0))).solution.isSome
      = true := by
  refine ⟨rfl, by decide, rfl, rfl, rfl⟩

/-- C2 counterexample: in `save_problem` (the submit path behind
`create_sudoku_ip_problem`) the broker publish happens before the KV
write, so the ordering contract "KV write precedes broker publish" fails
on that path. -/
theorem c2_counterexample : ¬ kvWriteBeforePublish saveProblemTrace := by decide

/-- C2 amended: `PuzzleService.create_puzzle` writes the KV record before
publishing to the broker, but `save_problem` publishes the serialized
problem to the work queue before the KV write. -/
theorem c2_create_puzzle_orders_kv_first :
    kvWriteBeforePublish createPuzzleTrace
  ∧ saveProblemTrace.findIdx (· == SubmitEvent.brokerPublish)
      < saveProblemTrace.findIdx (· == SubmitEvent.kvWrite) := by decide

/-- C3 counterexample: a message whose body fails to decode makes
`_process_message` re-raise, and the consumer callback then negatively
acknowledges with requeue — it is not acked and dropped. -/
theorem c3_counterexample :
    consumeCallback false
      (processMessage (.error "CodecError: msgpack unpack failed") .optimal (fun _ => 0) true)
      = AckAction.nackRequeue
  ∧ AckAction.nackRequeue ≠ AckAction.ack := by decide

/-- C3 amended: for every message whose body fails to decode into a
Problem, the worker logs the error and negatively acknowledges the
message with requeue (there is no poison-message ack-and-drop branch in
the worker). -/
theorem c3_malformed_message_nacked_requeue :
    ∀ (e : String) (oracle : ORStatus) (vals : String → Int) (storeOk : Bool),
      consumeCallback false (processMessage (.error e) oracle vals storeOk)
        = AckAction.nackRequeue := by
  intro e oracle vals storeOk
  rfl

/-- C4: a consumed problem whose `problem_type` is registered (IP) but
whose `problem_name` has no model entry is emitted as FAILED — the
registry `dict.get` returns None and calling it raises `TypeError` in
the model-construction handler — not as UNSUPPORTED; only a miss on the
`problem_type` key itself yields UNSUPPORTED. -/
theorem c4_unregistered_name_failed_not_unsupported :
    (workerSolve pNQueens .optimal (fun _ => 0)).status = ProblemStatus.failed
  ∧ (workerSolve pNQueens .optimal (fun _ => 0)).status ≠ ProblemStatus.unsupported
  ∧ (workerSolve pSatType .optimal (fun _ => 0)).status = ProblemStatus.unsupported := by
  refine ⟨rfl, by decide, rfl⟩

/-- C6 counterexample: a Problem with a non-default `problem_class` does
not survive the codec round trip — `_deserialize_problem` pops the
serialized class tag and the reconstructed instance gets the class
default instead. -/
theorem c6_counterexample :
    deserializeProblem (serializeProblem (.base rCustomClass))
      ≠ some (.base rCustomClass) := by
  simp [deserializeProblem, serializeProblem, rCustomClass]
  decide

/-- C6 amended: the round trip
`_deserialize_problem ∘ _serialize_problem` is the identity exactly on
base Problem instances whose `problem_class` is the module default
"clients.schemas.problems" (and whose identifying fields are non-empty,
as `__post_init__` requires); any other `problem_class` value is
replaced by a class default, so such instances — including the Sudoku
subclass, whose default tag is not in the codec's class map — do not
round-trip. -/
theorem c6_roundtrip_on_default_class :
    ∀ r : ProblemRec, r.problem_class = "clients.schemas.problems" →
      r.problem_id ≠ "" → r.problem_type ≠ "" → r.problem_name ≠ "" →
      deserializeProblem (serializeProblem (.base r)) = some (.base r) := by
  intro r hclass hid htype hname
  obtain ⟨pid, ptype, pname, pclass, pdata, pcreated, pstatus, psol, ptime, perr⟩ := r
  simp only at hclass hid htype hname
  subst hclass
  simp [deserializeProblem, serializeProblem, hid, htype, hname]

/-- C6 witness: the amended round trip at a concrete default-class
record. -/
theorem c6_roundtrip_witness :
    rDefaultClass.problem_class = "clients.schemas.problems"
  ∧ deserializeProblem (serializeProblem (.base rDefaultClass))
      = some (.base rDefaultClass) :=
  ⟨rfl, c6_roundtrip_on_default_class rDefaultClass rfl (by decide) (by decide) (by decide)⟩

/-- C7 counterexample: the legacy `IPSolver._solve_with_ortools`
(solver/services/ip/ip.py) translates an equality constraint to the
unconstrained interval (-infinity, +infinity) instead of the two-sided
bound [rhs, rhs], and a coefficient naming an undeclared variable makes
the whole solve error out instead of being skipped. -/
theorem c7_counterexample :
    legacyCtBounds "==" 1 = (none, none)
  ∧ legacyCtBounds "==" 1 ≠ (some 1, some 1)
  ∧ legacyApplyCoefficients ["x_0_0_1"] [("y", 1)] = .error "KeyError" := by
  refine ⟨rfl, by decide, rfl⟩

/-- C7 amended: the active adapter `IPSolverService._solve_with_ortools`
translates the senses correctly — equality to [rhs, rhs], `<=` to
(-infinity, rhs], `>=` to [rhs, +infinity) — and applies exactly the
coefficients whose variables are declared (undeclared ones are skipped
with a warning); the legacy `IPSolver._solve_with_ortools` instead maps
equality to (-infinity, +infinity) and fails on undeclared variables. -/
theorem c7_sense_translation :
    ∀ rhs : Int,
      ctBounds "==" rhs = some (some rhs, some rhs)
    ∧ ctBounds "<=" rhs = some (none, some rhs)
    ∧ ctBounds ">=" rhs = some (some rhs, none)
    ∧ (∀ (varNames : List String) (coeffs : List (String × Int)) p,
        p ∈ appliedCoefficients varNames coeffs → varNames.contains p.1 = true)
    ∧ (∀ (varNames : List String) (coeffs : List (String × Int)) p,
        p ∈ coeffs → varNames.contains p.1 = true →
          p ∈ appliedCoefficients varNames coeffs)
    ∧ legacyCtBounds "==" rhs = (none, none) := by
  intro rhs
  refine ⟨rfl, rfl, rfl, ?_, ?_, rfl⟩
  · intro varNames coeffs p hp
    exact (List.mem_filter.mp hp).2
  · intro varNames coeffs p hp hc
    exact List.mem_filter.mpr ⟨hp, hc⟩

/-- C7 witness: the amended facts at concrete inputs, with the membership
hypotheses discharged concretely. -/
theorem c7_sense_translation_witness :
    ctBounds "==" 5 = some (some 5, some 5)
  ∧ ["a"].contains (("a", (2 : Int)), ()).1.1 = true
  ∧ ("a", (2 : Int)) ∈ appliedCoefficients ["a"] [("a", 2), ("b", 3)] :=
  ⟨(c7_sense_translation 5).1,
   (c7_sense_translation 5).2.2.2.1 ["a"] [("a", 2), ("b", 3)] ("a", 2) (by decide),
   (c7_sense_translation 5).2.2.2.2.1 ["a"] [("a", 2), ("b", 3)] ("a", 2)
     (by decide) (by decide)⟩

/-- C8 counterexample: the result listener acks a decodable message even
when processing fails, and the ack event precedes the KV upsert in the
listener's event order — so "ack only after both succeeded, nack-requeue
on failure" fails on both counts. -/
theorem c8_counterexample :
    onResultMessage (.ok { puzzle_id := "p-1", status := "SOLVED", output := none })
      (.error "StorageError") = AckAction.ack
  ∧ AckAction.ack ≠ AckAction.nackRequeue
  ∧ resultListenerTrace.findIdx (· == ListenerEvent.acked)
      < resultListenerTrace.findIdx (· == ListenerEvent.kvUpserted) := by
  refine ⟨rfl, by decide, by decide⟩

/-- C8 amended: the result listener acknowledges every consumed message
unconditionally — malformed bodies are acked and dropped, and decodable
bodies are acked in a `finally` block immediately after the callback
merely schedules the asynchronous processing, before the KV upsert and
the streamer publish run; no failure is negatively acknowledged. -/
theorem c8_listener_acks_unconditionally :
    (∀ (d : Except String ResultMessage) (cb : Except String Unit),
      onResultMessage d cb = AckAction.ack)
  ∧ resultListenerTrace.findIdx (· == ListenerEvent.acked)
      < resultListenerTrace.findIdx (· == ListenerEvent.kvUpserted)
  ∧ resultListenerTrace.findIdx (· == ListenerEvent.acked)
      < resultListenerTrace.findIdx (· == ListenerEvent.streamPublished) := by
  refine ⟨?_, by decide, by decide⟩
  intro d cb
  cases d <;> cases cb <;> rfl

/-- C9 counterexample: IN_PROGRESS is not a representable value of the
problem status type — no member of `ProblemStatus` has that value. -/
theorem c9_counterexample : ¬ ∃ s : ProblemStatus, s.value = "IN_PROGRESS" := by decide

/-- C9 amended: the status enum has exactly the six values CREATED,
IN_QUEUE, SOLVED, UNSOLVABLE, UNSUPPORTED, FAILED — IN_PROGRESS does not
exist — and the worker never writes an intermediate status: every
Solution it emits carries one of the four terminal statuses. -/
theorem c9_no_in_progress_status :
    (∀ s : ProblemStatus,
      s.value ∈ ["CREATED", "IN_QUEUE", "SOLVED", "UNSOLVABLE", "UNSUPPORTED", "FAILED"]
      ∧ s.value ≠ "IN_PROGRESS")
  ∧ (∀ (p : ProblemRec) (oracle : ORStatus) (vals : String → Int),
      (workerSolve p oracle vals).status
        ∈ [ProblemStatus.solved, .unsolvable, .unsupported, .failed]) := by
  constructor
  · intro s
    cases s <;> exact ⟨by decide, by decide⟩
  · intro p oracle vals
    unfold workerSolve
    by_cases h1 : p.problem_type ≠ ProblemType.ip.value
    · simp [h1]
    · by_cases h2 : p.problem_name ≠ ProblemName.sudoku.value
      · simp [h1, h2]
      · simp only [h1, h2, if_false]
        cases hm : sudokuModelInit p with
        | error e => simp
        | ok m =>
          unfold writeBackSolution ipServiceSolve
          simp

/-- C10: `SudokuCreateRequest.validate_grid` accepts a grid iff every row
passes the per-row checks (length exactly 9, characters drawn from
digits and underscore) — the number of rows is never checked, so a grid
with two rows whose rows pass is accepted. -/
theorem c10_validate_grid_per_row_only :
    (∀ grid : List String,
      validateGrid grid = true ↔
        ∀ row ∈ grid, row.length = 9 ∧ ∀ c ∈ row.data, (c.isDigit = true ∨ c = '_'))
  ∧ validateGrid ["123456789", "_23___789"] = true := by
  constructor
  · intro grid
    simp [validateGrid, rowOk, isAllowedChar, List.all_eq_true, Bool.and_eq_true,
      Bool.or_eq_true, beq_iff_eq, decide_eq_true_iff]
  · decide

/-! ## Development for claim C5: clue preservation of the Sudoku
pipelines -/

/-- The decoder's parser inverts the encoder's name builder on the
bounded index ranges the encoding uses. -/
theorem parse_mkVarName_fin :
    ∀ (i j : Fin 9) (k : Fin 10),
      parseVarName (mkVarName i.val j.val k.val) = some (i.val, j.val, k.val) := by
  decide

theorem parse_mkVarName {i j k : Nat} (hi : i < 9) (hj : j < 9) (hk : k < 10) :
    parseVarName (mkVarName i j k) = some (i, j, k) :=
  parse_mkVarName_fin ⟨i, hi⟩ ⟨j, hj⟩ ⟨k, hk⟩

theorem getD_set_self {α : Type} (l : List α) (n : Nat) (a d : α) (h : n < l.length) :
    (l.set n a).getD n d = a := by
  simp [List.getD_eq_getElem?_getD, List.getElem?_set_self', List.getElem?_eq_getElem h]

theorem getD_set_ne {α : Type} (l : List α) {n m : Nat} (a d : α) (h : n ≠ m) :
    (l.set n a).getD m d = l.getD m d := by
  simp [List.getD_eq_getElem?_getD, List.getElem?_set_ne h]

theorem length_set2d (g : List (List Nat)) (i j v : Nat) :
    (set2d g i j v).length = g.length := by
  simp [set2d]

theorem getD_set2d_row (g : List (List Nat)) (i i' j' v : Nat) :
    ((set2d g i' j' v).getD i []).length = (g.getD i []).length := by
  unfold set2d
  by_cases h : i' = i
  · subst h
    by_cases hi : i' < g.length
    · rw [getD_set_self g i' _ [] hi, List.length_set]
    · rw [List.set_eq_of_length_le (Nat.le_of_not_lt hi)]
  · rw [getD_set_ne g _ [] h]

theorem get2d_set2d_same (g : List (List Nat)) (i j v : Nat)
    (hi : i < g.length) (hj : j < (g.getD i []).length) :
    get2d (set2d g i j v) i j = v := by
  unfold get2d set2d
  rw [getD_set_self g i _ [] hi]
  exact getD_set_self _ j v 0 hj

theorem get2d_set2d_other (g : List (List Nat)) (i j i' j' v : Nat)
    (h : ¬(i' = i ∧ j' = j)) :
    get2d (set2d g i' j' v) i j = get2d g i j := by
  unfold get2d set2d
  by_cases hii : i' = i
  · subst hii
    have hjj : j' ≠ j := fun hj => h ⟨rfl, hj⟩
    by_cases hi : i' < g.length
    · rw [getD_set_self g i' _ [] hi]
      exact getD_set_ne _ v 0 hjj
    · rw [List.set_eq_of_length_le (Nat.le_of_not_lt hi)]
  · rw [getD_set_ne g _ [] hii]

/-- Writing anywhere either lands the written value at the cell or leaves
the cell unchanged. -/
theorem get2d_set2d_cases (g : List (List Nat)) (i j v : Nat) :
    get2d (set2d g i j v) i j = v ∨ get2d (set2d g i j v) i j = get2d g i j := by
  by_cases hi : i < g.length
  · by_cases hj : j < (g.getD i []).length
    · exact Or.inl (get2d_set2d_same g i j v hi hj)
    · right
      unfold get2d set2d
      rw [List.set_eq_of_length_le (Nat.le_of_not_lt hj), getD_set_self g i _ [] hi]
  · right
    unfold get2d set2d
    rw [List.set_eq_of_length_le (Nat.le_of_not_lt hi)]

theorem applyWrites_length (ws : List (Nat × Nat × Nat)) (g : List (List Nat)) :
    (applyWrites g ws).length = g.length := by
  induction ws generalizing g with
  | nil => rfl
  | cons w ws ih => rw [applyWrites, List.foldl_cons, ← applyWrites, ih, length_set2d]

theorem applyWrites_row_length (ws : List (Nat × Nat × Nat)) (g : List (List Nat))
    (i : Nat) : ((applyWrites g ws).getD i []).length = (g.getD i []).length := by
  induction ws generalizing g with
  | nil => rfl
  | cons w ws ih => rw [applyWrites, List.foldl_cons, ← applyWrites, ih, getD_set2d_row]

/-- If every write aimed at `(i, j)` writes `v` and the cell already holds
`v`, the fold keeps it at `v`. -/
theorem applyWrites_keep (ws : List (Nat × Nat × Nat)) (g : List (List Nat))
    (i j v : Nat)
    (hall : ∀ w ∈ ws, w.1 = i → w.2.1 = j → w.2.2 = v)
    (hg : get2d g i j = v) :
    get2d (applyWrites g ws) i j = v := by
  induction ws generalizing g with
  | nil => exact hg
  | cons w ws ih =>
    rw [applyWrites, List.foldl_cons, ← applyWrites]
    refine ih (set2d g w.1 w.2.1 w.2.2)
      (fun w' hw' h1 h2 => hall w' (List.mem_cons_of_mem w hw') h1 h2) ?_
    by_cases hw : w.1 = i ∧ w.2.1 = j
    · obtain ⟨hwi, hwj⟩ := hw
      have hv : w.2.2 = v := hall w (List.mem_cons_self w ws) hwi hwj
      rw [hwi, hwj, hv]
      rcases get2d_set2d_cases g i j v with hc | hc
      · exact hc
      · rw [hc]; exact hg
    · rw [get2d_set2d_other g i j w.1 w.2.1 w.2.2 hw]
      exact hg

/-- If every write aimed at `(i, j)` writes `v`, at least one such write
occurs, and the cell is in range, the fold ends with the cell at `v`. -/
theorem applyWrites_last_value (ws : List (Nat × Nat × Nat)) (g : List (List Nat))
    (i j v : Nat)
    (hall : ∀ w ∈ ws, w.1 = i → w.2.1 = j → w.2.2 = v)
    (hmem : (i, j, v) ∈ ws)
    (hi : i < g.length) (hj : j < (g.getD i []).length) :
    get2d (applyWrites g ws) i j = v := by
  induction ws generalizing g with
  | nil => cases hmem
  | cons w ws ih =>
    rw [applyWrites, List.foldl_cons, ← applyWrites]
    by_cases hw : w.1 = i ∧ w.2.1 = j
    · obtain ⟨hwi, hwj⟩ := hw
      have hv : w.2.2 = v := hall w (List.mem_cons_self w ws) hwi hwj
      refine applyWrites_keep ws _ i j v
        (fun w' hw' h1 h2 => hall w' (List.mem_cons_of_mem w hw') h1 h2) ?_
      have hset : set2d g w.1 w.2.1 w.2.2 = set2d g i j v := by rw [hwi, hwj, hv]
      rw [hset]
      exact get2d_set2d_same g i j v hi hj
    · rcases List.mem_cons.mp hmem with heq | hmemtail
      · exact absurd ⟨(congrArg Prod.fst heq.symm),
          (congrArg (fun t => t.2.1) heq.symm)⟩ hw
      · refine ih (set2d g w.1 w.2.1 w.2.2)
          (fun w' hw' h1 h2 => hall w' (List.mem_cons_of_mem w hw') h1 h2)
          hmemtail ?_ ?_
        · rwa [length_set2d]
        · rwa [getD_set2d_row]

/-- A nonnegative integer list with sum zero is identically zero. -/
theorem all_zero_of_sum_zero (m : List Int)
    (hnn : ∀ z ∈ m, 0 ≤ z) (hsum : m.sum = 0) : ∀ z ∈ m, z = 0 := by
  induction m with
  | nil => intro z hz; cases hz
  | cons a m ih =>
    have ha : 0 ≤ a := hnn a (List.mem_cons_self a m)
    have hm : 0 ≤ m.sum := List.sum_nonneg fun z hz => hnn z (List.mem_cons_of_mem a hz)
    rw [List.sum_cons] at hsum
    have ha0 : a = 0 := by omega
    have hm0 : m.sum = 0 := by omega
    intro z hz
    rcases List.mem_cons.mp hz with rfl | hz'
    · exact ha0
    · exact ih (fun z hz => hnn z (List.mem_cons_of_mem a hz)) hm0 z hz'

/-- In a nonnegative family summing to one over an index list, an index
whose value is one forces every other index's value to zero. -/
theorem map_sum_one_unique {l : List Nat} {f : Nat → Int}
    (hnn : ∀ x ∈ l, 0 ≤ f x) (hsum : (l.map f).sum = 1)
    {x0 : Nat} (hx0 : x0 ∈ l) (hfx0 : f x0 = 1) :
    ∀ y ∈ l, y ≠ x0 → f y = 0 := by
  have hperm : l.Perm (x0 :: l.erase x0) := List.perm_cons_erase hx0
  have hsum' : ((x0 :: l.erase x0).map f).sum = 1 := by
    rw [← (hperm.map f).sum_eq]; exact hsum
  rw [List.map_cons, List.sum_cons, hfx0] at hsum'
  have htail : ((l.erase x0).map f).sum = 0 := by omega
  intro y hy hyne
  have hy' : y ∈ l.erase x0 := (List.mem_erase_of_ne hyne).mpr hy
  refine all_zero_of_sum_zero ((l.erase x0).map f) ?_ htail (f y)
    (List.mem_map_of_mem f hy')
  intro z hz
  obtain ⟨y', hy'', rfl⟩ := List.mem_map.mp hz
  exact hnn y' (List.mem_of_mem_erase hy'')

/-- The IP decoder fold is the write sequence applied to the zero grid. -/
theorem ipSolutionToSudokuGrid_eq_applyWrites (pairs : List (String × Int)) :
    ipSolutionToSudokuGrid pairs = applyWrites (zeroGrid 9) (ipWrites pairs) := by
  suffices h : ∀ g, pairs.foldl
      (fun g p =>
        match parseVarName p.1 with
        | some ijk => if p.2 = (1 : Int) then set2d g ijk.1 ijk.2.1 ijk.2.2 else g
        | none => g) g = applyWrites g (ipWrites pairs) by
    exact h (zeroGrid 9)
  induction pairs with
  | nil => intro g; rfl
  | cons p pairs ih =>
    intro g
    cases hp : parseVarName p.1 with
    | none =>
      have hstep : (match parseVarName p.1 with
          | some ijk => if p.2 = (1 : Int) then set2d g ijk.1 ijk.2.1 ijk.2.2 else g
          | none => g) = g := by rw [hp]
      have hwrite : (match parseVarName p.1 with
          | some ijk => if p.2 = (1 : Int) then some ijk else none
          | none => none) = (none : Option (Nat × Nat × Nat)) := by rw [hp]
      rw [List.foldl_cons, hstep, ipWrites, List.filterMap_cons, hwrite, ← ipWrites]
      exact ih g
    | some ijk =>
      by_cases hv : p.2 = (1 : Int)
      · have hstep : (match parseVarName p.1 with
            | some ijk => if p.2 = (1 : Int) then set2d g ijk.1 ijk.2.1 ijk.2.2 else g
            | none => g) = set2d g ijk.1 ijk.2.1 ijk.2.2 := by
          rw [hp]; exact if_pos hv
        have hwrite : (match parseVarName p.1 with
            | some ijk => if p.2 = (1 : Int) then some ijk else none
            | none => none) = some ijk := by
          rw [hp]; exact if_pos hv
        rw [List.foldl_cons, hstep, ipWrites, List.filterMap_cons, hwrite, ← ipWrites,
          applyWrites, List.foldl_cons, ← applyWrites]
        exact ih (set2d g ijk.1 ijk.2.1 ijk.2.2)
      · have hstep : (match parseVarName p.1 with
            | some ijk => if p.2 = (1 : Int) then set2d g ijk.1 ijk.2.1 ijk.2.2 else g
            | none => g) = g := by
          rw [hp]; exact if_neg hv
        have hwrite : (match parseVarName p.1 with
            | some ijk => if p.2 = (1 : Int) then some ijk else none
            | none => none) = (none : Option (Nat × Nat × Nat)) := by
          rw [hp]; exact if_neg hv
        rw [List.foldl_cons, hstep, ipWrites, List.filterMap_cons, hwrite, ← ipWrites]
        exact ih g

/-- The SAT decoder fold is the write sequence applied to the zero grid. -/
theorem satSolutionToSudokuGrid_eq_applyWrites (assignment : List (Nat × Bool)) :
    satSolutionToSudokuGrid assignment = applyWrites (zeroGrid 9) (satWrites assignment) := by
  suffices h : ∀ g, assignment.foldl
      (fun g p =>
        if p.2 then
          set2d g ((p.1 - 1) / 81) (((p.1 - 1) % 81) / 9) ((p.1 - 1) % 9 + 1)
        else g) g = applyWrites g (satWrites assignment) by
    exact h (zeroGrid 9)
  induction assignment with
  | nil => intro g; rfl
  | cons p ps ih =>
    intro g
    by_cases hb : p.2 = true
    · have hstep : (if p.2 = true then
          set2d g ((p.1 - 1) / 81) (((p.1 - 1) % 81) / 9) ((p.1 - 1) % 9 + 1)
        else g) = set2d g ((p.1 - 1) / 81) (((p.1 - 1) % 81) / 9) ((p.1 - 1) % 9 + 1) :=
        if_pos hb
      have hwrite : (if p.2 = true then
          some ((p.1 - 1) / 81, ((p.1 - 1) % 81) / 9, (p.1 - 1) % 9 + 1)
        else (none : Option (Nat × Nat × Nat)))
          = some ((p.1 - 1) / 81, ((p.1 - 1) % 81) / 9, (p.1 - 1) % 9 + 1) :=
        if_pos hb
      rw [List.foldl_cons, hstep, satWrites, List.filterMap_cons, hwrite, ← satWrites,
        applyWrites, List.foldl_cons, ← applyWrites]
      exact ih _
    · have hstep : (if p.2 = true then
          set2d g ((p.1 - 1) / 81) (((p.1 - 1) % 81) / 9) ((p.1 - 1) % 9 + 1)
        else g) = g := if_neg hb
      have hwrite : (if p.2 = true then
          some ((p.1 - 1) / 81, ((p.1 - 1) % 81) / 9, (p.1 - 1) % 9 + 1)
        else (none : Option (Nat × Nat × Nat))) = none := if_neg hb
      rw [List.foldl_cons, hstep, satWrites, List.filterMap_cons, hwrite, ← satWrites]
      exact ih g

theorem sudokuToIpConstraints_vars (grid : List (List Nat)) :
    (sudokuToIpConstraints grid).vars = ipVariables 9 := rfl

theorem senseHolds_eq_iff (lhs rhs : Int) : senseHolds "==" lhs rhs ↔ lhs = rhs := by
  unfold senseHolds
  rw [if_pos rfl]

theorem evalLin_unit (a : String → Int) (n : String) : evalLin a [(n, 1)] = a n := by
  simp [evalLin]

theorem evalLin_unit_coeffs (a : String → Int) (l : List Nat) (f : Nat → String) :
    evalLin a (l.map fun k => (f k, (1 : Int)))
      = (l.map fun k => a (f k)).sum := by
  simp [evalLin, List.map_map, Function.comp_def]

/-- Membership of the cell constraint of `(i, j)` in the generated IP
formulation. -/
theorem ipCell_mem (grid : List (List Nat)) {i j : Nat} (hi : i < 9) (hj : j < 9) :
    ({ coefficients := (List.range' 1 9).map fun k => (mkVarName i j k, (1 : Int))
       sense := "==", rhs := 1
       name := "cell_" ++ toString i ++ "_" ++ toString j ++ "_one_value" } : IPConstraint)
      ∈ (sudokuToIpConstraints grid).constraints := by
  apply List.mem_append_left
  apply List.mem_append_left
  apply List.mem_append_left
  apply List.mem_append_left
  exact List.mem_flatMap.mpr ⟨i, List.mem_range.mpr hi,
    List.mem_map.mpr ⟨j, List.mem_range.mpr hj, rfl⟩⟩

/-- Membership of the clue constraint of a prefilled cell in the generated
IP formulation. -/
theorem ipClue_mem (grid : List (List Nat)) {i j : Nat} (hi : i < 9) (hj : j < 9)
    (hne : get2d grid i j ≠ 0) :
    ({ coefficients := [(mkVarName i j (get2d grid i j), (1 : Int))]
       sense := "==", rhs := 1
       name := "clue_" ++ toString i ++ "_" ++ toString j } : IPConstraint)
      ∈ (sudokuToIpConstraints grid).constraints := by
  apply List.mem_append_left
  apply List.mem_append_left
  apply List.mem_append_left
  apply List.mem_append_right
  exact List.mem_flatMap.mpr ⟨i, List.mem_range.mpr hi,
    List.mem_filterMap.mpr ⟨j, List.mem_range.mpr hj, by rw [if_pos hne]⟩⟩

/-- Membership of a binary assignment variable in the generated IP
formulation. -/
theorem ipVar_mem (grid : List (List Nat)) {i j k : Nat} (hi : i < 9) (hj : j < 9)
    (hk1 : 1 ≤ k) (hk10 : k < 10) :
    (mkVarName i j k, ({ type := "Binary", lb := 0, ub := 1 } : VarInfo))
      ∈ (sudokuToIpConstraints grid).vars := by
  rw [sudokuToIpConstraints_vars]
  exact List.mem_flatMap.mpr ⟨i, List.mem_range.mpr hi,
    List.mem_flatMap.mpr ⟨j, List.mem_range.mpr hj,
      List.mem_map.mpr ⟨k, List.mem_range'_1.mpr ⟨hk1, by omega⟩, rfl⟩⟩⟩

/-- Every declared variable of the generated IP formulation is a binary
assignment variable with in-range indices. -/
theorem ipVar_shape {q : String × VarInfo} (hq : q ∈ ipVariables 9) :
    ∃ i j k, i < 9 ∧ j < 9 ∧ 1 ≤ k ∧ k < 10 ∧
      q = (mkVarName i j k, ({ type := "Binary", lb := 0, ub := 1 } : VarInfo)) := by
  obtain ⟨i, hi, hq⟩ := List.mem_flatMap.mp hq
  obtain ⟨j, hj, hq⟩ := List.mem_flatMap.mp hq
  obtain ⟨k, hk, hq⟩ := List.mem_map.mp hq
  obtain ⟨hk1, hk10⟩ := List.mem_range'_1.mp hk
  exact ⟨i, j, k, List.mem_range.mp hi, List.mem_range.mp hj, hk1, by omega, hq.symm⟩

/-- The default-read of an in-range index is a member of the list. -/
theorem getD_mem {α : Type} (l : List α) (d : α) {n : Nat} (h : n < l.length) :
    l.getD n d ∈ l := by
  rw [List.getD_eq_getElem?_getD, List.getElem?_eq_getElem h]
  exact List.getElem_mem h

/-- A well-formed grid has every cell value at most 9. -/
theorem get2d_le_of_wf {grid : List (List Nat)} (hwf : WFGrid grid)
    {i j : Nat} (hi : i < 9) (hj : j < 9) : get2d grid i j ≤ 9 := by
  obtain ⟨hlen, hrow⟩ := hwf
  have hi' : i < grid.length := by omega
  obtain ⟨hrlen, hval⟩ := hrow _ (getD_mem grid [] hi')
  have hj' : j < (grid.getD i []).length := by omega
  exact hval _ (getD_mem _ 0 hj')

theorem zeroGrid_length : (zeroGrid 9).length = 9 := by
  simp [zeroGrid]

theorem zeroGrid_row_length {i : Nat} (hi : i < 9) :
    ((zeroGrid 9).getD i []).length = 9 := by
  have : (zeroGrid 9).getD i [] = List.replicate 9 0 := by
    rw [zeroGrid, List.getD_eq_getElem?_getD,
      List.getElem?_replicate_of_lt hi]
    rfl
  rw [this, List.length_replicate]

/-- The IP half of the clue-preservation invariant. -/
theorem ip_pipeline_preserves_clues (grid : List (List Nat)) (a : String → Int)
    (hwf : WFGrid grid) (hsat : ipSatisfies a (sudokuToIpConstraints grid))
    {i j : Nat} (hi : i < 9) (hj : j < 9) (hne : get2d grid i j ≠ 0) :
    get2d (ipDecodedGrid grid a) i j = get2d grid i j := by
  have hv9 : get2d grid i j ≤ 9 := get2d_le_of_wf hwf hi hj
  have hv1 : 1 ≤ get2d grid i j := Nat.one_le_iff_ne_zero.mpr hne
  -- the clue constraint pins the clue's variable to 1
  have haclue : a (mkVarName i j (get2d grid i j)) = 1 := by
    have h := hsat.1 _ (ipClue_mem grid hi hj hne)
    rw [senseHolds_eq_iff, evalLin_unit] at h
    exact h
  -- the cell constraint makes the cell's variables sum to 1
  have hsum : ((List.range' 1 9).map fun k => a (mkVarName i j k)).sum = 1 := by
    have h := hsat.1 _ (ipCell_mem grid hi hj)
    rw [senseHolds_eq_iff, evalLin_unit_coeffs] at h
    exact h
  -- binary bounds for the cell's variables
  have hnn : ∀ k ∈ List.range' 1 9, 0 ≤ a (mkVarName i j k) := by
    intro k hk
    obtain ⟨hk1, hk10⟩ := List.mem_range'_1.mp hk
    exact (hsat.2 _ (ipVar_mem grid hi hj hk1 (by omega)) rfl).1
  -- every non-clue variable of the cell is 0
  have hzero : ∀ k ∈ List.range' 1 9, k ≠ get2d grid i j → a (mkVarName i j k) = 0 :=
    map_sum_one_unique hnn hsum
      (List.mem_range'_1.mpr ⟨hv1, by omega⟩) haclue
  unfold ipDecodedGrid
  rw [sudokuToIpConstraints_vars, ipSolutionToSudokuGrid_eq_applyWrites]
  apply applyWrites_last_value
  · -- every write landing on (i, j) writes the clue value
    intro w hw hwi hwj
    obtain ⟨p, hp, hpw⟩ := List.mem_filterMap.mp hw
    obtain ⟨q, hq, rfl⟩ := List.mem_map.mp hp
    obtain ⟨i', j', k', hi', hj', hk1, hk10, rfl⟩ := ipVar_shape hq
    rw [parse_mkVarName hi' hj' hk10] at hpw
    dsimp only at hpw
    by_cases ha : a (mkVarName i' j' k') = 1
    · rw [if_pos ha] at hpw
      obtain rfl : (i', j', k') = w := Option.some.inj hpw
      simp only at hwi hwj ⊢
      subst hwi; subst hwj
      by_contra hk
      have h0 : a (mkVarName i' j' k') = 0 :=
        hzero k' (List.mem_range'_1.mpr ⟨hk1, by omega⟩) hk
      rw [h0] at ha
      exact absurd ha (by decide)
    · rw [if_neg ha] at hpw
      cases hpw
  · -- the clue's own write occurs
    apply List.mem_filterMap.mpr
    refine ⟨(mkVarName i j (get2d grid i j), a (mkVarName i j (get2d grid i j))), ?_, ?_⟩
    · exact List.mem_map.mpr
        ⟨(mkVarName i j (get2d grid i j), { type := "Binary", lb := 0, ub := 1 }),
         by rw [← sudokuToIpConstraints_vars grid]
            exact ipVar_mem grid hi hj hv1 (by omega), rfl⟩
    · rw [parse_mkVarName hi hj (by omega)]
      dsimp only
      rw [if_pos haclue]
  · rw [zeroGrid_length]; exact hi
  · rw [zeroGrid_row_length hi]; exact hj

theorem satLitHolds_pos (b : Nat → Bool) (r c v : Nat) :
    satLitHolds b (vNum r c v) ↔ b (81 * r + 9 * c + v + 1) = true := by
  unfold satLitHolds vNum
  rw [if_pos (by exact_mod_cast Nat.succ_pos _)]
  rw [Int.toNat_ofNat]

theorem satLitHolds_neg (b : Nat → Bool) (r c v : Nat) :
    satLitHolds b (-vNum r c v) ↔ b (81 * r + 9 * c + v + 1) = false := by
  unfold satLitHolds vNum
  rw [if_neg (by omega), neg_neg, Int.toNat_ofNat]

/-- Membership of a clue's unit clause in the generated CNF. -/
theorem satClue_mem (grid : List (List Nat)) {i j : Nat} (hi : i < 9) (hj : j < 9)
    (hne : get2d grid i j ≠ 0) :
    [vNum i j (get2d grid i j - 1)] ∈ sudokuToSatConstraints grid := by
  unfold sudokuToSatConstraints
  apply List.mem_append_right
  exact List.mem_flatMap.mpr ⟨i, List.mem_range.mpr hi,
    List.mem_filterMap.mpr ⟨j, List.mem_range.mpr hj, by rw [if_pos hne]⟩⟩

/-- Membership of a cell's at-most-one pair clause in the generated CNF. -/
theorem satCellPair_mem (grid : List (List Nat)) {i j v1 v2 : Nat}
    (hi : i < 9) (hj : j < 9) (h12 : v1 < v2) (h2 : v2 < 9) :
    [-vNum i j v1, -vNum i j v2] ∈ sudokuToSatConstraints grid := by
  unfold sudokuToSatConstraints
  apply List.mem_append_left
  apply List.mem_append_left
  apply List.mem_append_left
  apply List.mem_append_left
  apply List.mem_append_right
  exact List.mem_flatMap.mpr ⟨i, List.mem_range.mpr hi,
    List.mem_flatMap.mpr ⟨j, List.mem_range.mpr hj,
      List.mem_flatMap.mpr ⟨v1, List.mem_range.mpr (by omega),
        List.mem_map.mpr ⟨v2, List.mem_range'_1.mpr ⟨by omega, by omega⟩, rfl⟩⟩⟩⟩

/-- The SAT half of the clue-preservation invariant. -/
theorem sat_pipeline_preserves_clues (grid : List (List Nat)) (b : Nat → Bool)
    (hwf : WFGrid grid) (hsat : satSatisfies b (sudokuToSatConstraints grid))
    {i j : Nat} (hi : i < 9) (hj : j < 9) (hne : get2d grid i j ≠ 0) :
    get2d (satDecodedGrid b) i j = get2d grid i j := by
  have hv9 : get2d grid i j ≤ 9 := get2d_le_of_wf hwf hi hj
  have hv1 : 1 ≤ get2d grid i j := Nat.one_le_iff_ne_zero.mpr hne
  -- the clue's unit clause forces its variable true
  have htrue : b (81 * i + 9 * j + (get2d grid i j - 1) + 1) = true := by
    obtain ⟨lit, hlit, hholds⟩ := hsat _ (satClue_mem grid hi hj hne)
    rw [List.mem_singleton] at hlit
    subst hlit
    exact (satLitHolds_pos b i j _).mp hholds
  -- the pairwise clauses force every other value of the cell false
  have hfalse : ∀ v, v < 9 → v ≠ get2d grid i j - 1 →
      b (81 * i + 9 * j + v + 1) = false := by
    intro v hv hvne
    rcases Nat.lt_or_ge v (get2d grid i j - 1) with hlt | hge
    · obtain ⟨lit, hlit, hholds⟩ :=
        hsat _ (satCellPair_mem grid hi hj hlt (by omega))
      rcases List.mem_cons.mp hlit with rfl | hlit'
      · exact (satLitHolds_neg b i j v).mp hholds
      · rw [List.mem_singleton] at hlit'
        subst hlit'
        rw [(satLitHolds_neg b i j _).mp hholds] at htrue
        cases htrue
    · have hgt : get2d grid i j - 1 < v := by omega
      obtain ⟨lit, hlit, hholds⟩ :=
        hsat _ (satCellPair_mem grid hi hj hgt hv)
      rcases List.mem_cons.mp hlit with rfl | hlit'
      · rw [(satLitHolds_neg b i j _).mp hholds] at htrue
        cases htrue
      · rw [List.mem_singleton] at hlit'
        subst hlit'
        exact (satLitHolds_neg b i j v).mp hholds
  unfold satDecodedGrid
  rw [satSolutionToSudokuGrid_eq_applyWrites]
  apply applyWrites_last_value
  · -- every write landing on (i, j) writes the clue value
    intro w hw hwi hwj
    obtain ⟨p, hp, hpw⟩ := List.mem_filterMap.mp hw
    obtain ⟨L, hL, rfl⟩ := List.mem_map.mp hp
    obtain ⟨hL1, hL730⟩ := List.mem_range'_1.mp hL
    dsimp only at hpw
    by_cases hb : b L = true
    · rw [if_pos hb] at hpw
      obtain rfl : ((L - 1) / 81, (L - 1) % 81 / 9, (L - 1) % 9 + 1) = w :=
        Option.some.inj hpw
      simp only at hwi hwj ⊢
      have hdecomp : L = 81 * i + 9 * j + (L - 1) % 9 + 1 := by omega
      have hv : (L - 1) % 9 < 9 := Nat.mod_lt _ (by omega)
      by_cases hveq : (L - 1) % 9 = get2d grid i j - 1
      · omega
      · rw [hdecomp] at hb
        rw [hfalse _ hv hveq] at hb
        cases hb
    · rw [if_neg hb] at hpw
      cases hpw
  · -- the clue's own write occurs
    apply List.mem_filterMap.mpr
    refine ⟨(81 * i + 9 * j + (get2d grid i j - 1) + 1,
             b (81 * i + 9 * j + (get2d grid i j - 1) + 1)), ?_, ?_⟩
    · exact List.mem_map.mpr
        ⟨81 * i + 9 * j + (get2d grid i j - 1) + 1,
         List.mem_range'_1.mpr ⟨by omega, by omega⟩, rfl⟩
    · dsimp only
      rw [if_pos htrue]
      congr 1
      refine Prod.ext ?_ (Prod.ext ?_ ?_) <;> dsimp only <;> omega
  · rw [zeroGrid_length]; exact hi
  · rw [zeroGrid_row_length hi]; exact hj

theorem satSatisfies_append (b : Nat → Bool) (l1 l2 : List (List Int)) :
    satSatisfies b (l1 ++ l2) ↔ satSatisfies b l1 ∧ satSatisfies b l2 := by
  unfold satSatisfies
  exact List.forall_mem_append

theorem satSatisfies_flatMap (b : Nat → Bool) (f : Nat → List (List Int))
    (l : List Nat) :
    satSatisfies b (l.flatMap f) ↔ ∀ x ∈ l, satSatisfies b (f x) :=
  ⟨fun h x hx cl hcl => h cl (List.mem_flatMap.mpr ⟨x, hx, hcl⟩),
   fun h cl hcl =>
     let ⟨x, hx, hcl'⟩ := List.mem_flatMap.mp hcl
     h x hx cl hcl'⟩

/-- C5: for every well-formed 9x9 input grid and every solver assignment
satisfying the generated constraints, the decoded grid agrees with the
input grid on every nonzero clue cell — for the IP pipeline (clue and
one-value-per-cell constraints pin each clue's binary variable) and for
the SAT pipeline (clue unit clauses and at-most-one pair clauses pin
each clue's variable). -/
theorem c5_pipelines_preserve_clue_cells :
    (∀ (grid : List (List Nat)) (a : String → Int),
      WFGrid grid → ipSatisfies a (sudokuToIpConstraints grid) →
      ∀ i j, i < 9 → j < 9 → get2d grid i j ≠ 0 →
        get2d (ipDecodedGrid grid a) i j = get2d grid i j)
  ∧ (∀ (grid : List (List Nat)) (b : Nat → Bool),
      WFGrid grid → satSatisfies b (sudokuToSatConstraints grid) →
      ∀ i j, i < 9 → j < 9 → get2d grid i j ≠ 0 →
        get2d (satDecodedGrid b) i j = get2d grid i j) :=
  ⟨fun grid a hwf hsat _ _ hi hj hne =>
     ip_pipeline_preserves_clues grid a hwf hsat hi hj hne,
   fun grid b hwf hsat _ _ hi hj hne =>
     sat_pipeline_preserves_clues grid b hwf hsat hi hj hne⟩

set_option maxRecDepth 1000000 in
/-- C5 witness: the solved canonical grid, with the assignments it
induces, satisfies both generated formulations, and both decoded grids
agree with the input's clue at cell (0, 0). -/
theorem c5_pipelines_witness :
    WFGrid gStar
  ∧ ipSatisfies aStar (sudokuToIpConstraints gStar)
  ∧ satSatisfies bStar (sudokuToSatConstraints gStar)
  ∧ get2d gStar 0 0 ≠ 0
  ∧ get2d (ipDecodedGrid gStar aStar) 0 0 = get2d gStar 0 0
  ∧ get2d (satDecodedGrid bStar) 0 0 = get2d gStar 0 0 := by
  have hwf : WFGrid gStar := by decide
  have hne : get2d gStar 0 0 ≠ 0 := by decide
  have hip : ipSatisfies aStar (sudokuToIpConstraints gStar) := by decide
  have hsat : satSatisfies bStar (sudokuToSatConstraints gStar) := by
    unfold sudokuToSatConstraints satAtLeastOneClauses satCellPairClauses
      satRowClauses satColClauses satBoxClauses satClueClauses
    rw [satSatisfies_append, satSatisfies_append, satSatisfies_append,
      satSatisfies_append, satSatisfies_append]
    simp only [satSatisfies_flatMap]
    refine ⟨⟨⟨⟨⟨?_, ?_⟩, ?_⟩, ?_⟩, ?_⟩, ?_⟩ <;> decide
  exact ⟨hwf, hip, hsat, hne,
    c5_pipelines_preserve_clue_cells.1 gStar aStar hwf hip 0 0 (by decide) (by decide) hne,
    c5_pipelines_preserve_clue_cells.2 gStar bStar hwf hsat 0 0 (by decide) (by decide) hne⟩

end AReason
